import Mathlib

/-!
Shallow embedding of scripts/deploy_esp/flash_usb.py.

The script resolves a (profile, bios) pair or a direct image URL from a
parsed YAML configuration, builds the flashusb.sh command line, and runs it
as a child process.  Effects are made explicit parameters:
  - the filesystem is a predicate pathExists : String → Bool;
  - stdin is a list of input lines consumed left to right (input() pops one);
  - the URL reachability probe is a predicate urlReachable : String → Bool;
  - the child process of run_flash_usb_script is described by a
    ChildBehavior value plus an optional interruption point, and the
    observable effects are returned as a list of events.
Each error constructor corresponds to one raise site of the script.
-/

namespace FlashUsb

/-- Error taxonomy.  One constructor per raise site of flash_usb.py; the
names follow the design taxonomy (the script distinguishes the sites by
exit code and message). -/
inductive Err where
  | missingPrivilege
  | missingDevicePath
  | deviceNotFound
  | badUrlScheme
  | badUrlExtension
  | badUrlNaming
  | urlUnreachable
  | invalidProfileChoice
  | buildDisabled
  | invalidBiosChoice
  | noBiosTypeConfigured
  | artifactNotFound
  | workdirNotFound
  | childExecutionFailed
  | interruptedByUser
  | eofOnInput
  deriving DecidableEq, Repr

/-- Does the character list start with the given needle list? -/
def listStartsWith : List Char → List Char → Bool
  | _, [] => true
  | [], _ :: _ => false
  | c :: cs, d :: ds => c == d && listStartsWith cs ds

/-- Does the haystack contain the needle as a contiguous sublist?  Model of
the Python substring operator (needle in haystack). -/
def listContainsSub : List Char → List Char → Bool
  | [], needle => needle.isEmpty
  | c :: t, needle => listStartsWith (c :: t) needle || listContainsSub t needle

/-- Model of Python str.startswith. -/
def strStarts (s t : String) : Bool := listStartsWith s.toList t.toList

/-- Model of Python str.endswith. -/
def strEnds (s t : String) : Bool := listStartsWith s.toList.reverse t.toList.reverse

/-- Model of Python str.lower restricted to ASCII case folding. -/
def strLower (s : String) : String := String.mk (s.toList.map Char.toLower)

/-- Model of the Python substring operator on strings. -/
def strContainsSub (hay needle : String) : Bool := listContainsSub hay.toList needle.toList

/-- Split a character list on the slash character. -/
def splitSlashAux (cur : List Char) : List Char → List (List Char)
  | [] => [cur.reverse]
  | '/' :: t => cur.reverse :: splitSlashAux [] t
  | c :: t => splitSlashAux (c :: cur) t

/-- Components of a POSIX path as pathlib.PurePosixPath keeps them: empty
components and single dots are dropped (pathlib normalizes away repeated
slashes and "." parts; ".." parts are kept). -/
def pathParts (s : String) : List String :=
  ((splitSlashAux [] s.toList).map String.mk).filter (fun p => p != "" && p != ".")

/-- Is the path string absolute? -/
def pathIsAbs (s : String) : Bool :=
  match s.toList with
  | '/' :: _ => true
  | _ => false

/-- Render a PurePosixPath from its absolute flag and parts, as str(Path(..))
does (the empty relative path renders as "."). -/
def pathStr (abs : Bool) (parts : List String) : String :=
  if abs then "/" ++ String.intercalate "/" parts
  else if parts.isEmpty then "." else String.intercalate "/" parts

/-- Model of str(pathlib.Path(s)): parse and re-render, normalizing. -/
def pyPathStr (s : String) : String := pathStr (pathIsAbs s) (pathParts s)

/-- Model of str(pathlib.Path(base) / name): the name wins when absolute,
otherwise the parts are concatenated. -/
def pyPathJoin (base name : String) : String :=
  if pathIsAbs name then pathStr true (pathParts name)
  else pathStr (pathIsAbs base) (pathParts base ++ pathParts name)

/-- Digit value of an ASCII digit character. -/
def digitVal (c : Char) : Nat := c.toNat - 48

/-- Continue parsing the digit part of a Python integer literal: a single
underscore is allowed between two digits (Python 3.6 grouping). -/
def pyDigitsGo (acc : Nat) : List Char → Option Nat
  | [] => some acc
  | '_' :: c :: cs => if c.isDigit then pyDigitsGo (acc * 10 + digitVal c) cs else none
  | c :: cs => if c.isDigit then pyDigitsGo (acc * 10 + digitVal c) cs else none

/-- Parse a nonempty digit run (with optional grouping underscores). -/
def pyDigits : List Char → Option Nat
  | [] => none
  | c :: cs => if c.isDigit then pyDigitsGo (digitVal c) cs else none

/-- Strip leading and trailing whitespace, as int(str) does before parsing. -/
def pyStrip (s : String) : List Char :=
  ((s.toList.dropWhile Char.isWhitespace).reverse.dropWhile Char.isWhitespace).reverse

/-- Model of Python int(str) on ASCII input: strip whitespace, optional
sign, then a digit run with optional grouping underscores; none models the
ValueError raised on any other input. -/
def pyInt (s : String) : Option Int :=
  match pyStrip s with
  | '+' :: rest => (pyDigits rest).map (fun n => (n : Int))
  | '-' :: rest => (pyDigits rest).map (fun n => -(n : Int))
  | rest => (pyDigits rest).map (fun n => (n : Int))

/-- The usb_images section of the configuration document. -/
structure UsbImages where
  all_in_one : Bool
  build : Bool
  bios : Bool
  efi : Bool
  output_path : String

/-- The configuration fields the script consumes.  profiles holds the name
field of each entry of the profiles list, in order, as choose_profile
extracts them. -/
structure Config where
  usb_images : UsbImages
  profiles : List String
  esp_dest_dir : String

/-- The resolved CLI arguments the precondition check consumes. -/
structure Args where
  dev_path : Option String
  image_url : Option String

/-- The ambient effects check_preconditions consults: effective uid,
filesystem existence, and the bounded-timeout URL probe (true means the
probe succeeded). -/
structure Env where
  uid : Nat
  pathExists : String → Bool
  urlReachable : String → Bool

/-- Split at the first occurrence of a character: before and after parts
with the separator dropped; none when the character is absent, mirroring
the Python find/split pattern. -/
def splitAtChar (sep : Char) : List Char → Option (List Char × List Char)
  | [] => none
  | c :: t =>
    if c == sep then some ([], t)
    else
      match splitAtChar sep t with
      | none => none
      | some (a, b) => some (c :: a, b)

/-- WHATWG C0 control or space characters (U+0000 to U+0020), lstripped
from the URL by urlsplit. -/
def isC0OrSpace (c : Char) : Bool := c.toNat ≤ 32

/-- Characters urlsplit removes anywhere in the URL (tab, CR, LF; the
bpo-43882 sanitization, present since the 2021 security releases,
3.6.14 included). -/
def isUnsafeUrlChar (c : Char) : Bool := c == '\t' || c == '\n' || c == '\r'

/-- Valid URL scheme characters (ASCII letters, digits, plus, minus,
dot), as scheme_chars of urllib.parse. -/
def isSchemeChar (c : Char) : Bool := c.isAlphanum || c == '+' || c == '-' || c == '.'

/-- Schemes for which urlparse splits path params at a semicolon
(uses_params of urllib.parse). -/
def usesParams : List String :=
  ["", "ftp", "hdl", "prospero", "http", "imap", "https", "shttp", "rtsp",
   "rtsps", "rtspu", "sip", "sips", "mms", "sftp", "tel"]

/-- Schemes for which urlunsplit re-inserts the double slash
(uses_netloc of urllib.parse). -/
def usesNetloc : List String :=
  ["", "ftp", "http", "gopher", "nntp", "telnet", "imap", "wais", "file",
   "mms", "https", "shttp", "snews", "prospero", "rtsp", "rtsps", "rtspu",
   "rsync", "svn", "svn+ssh", "sftp", "nfs", "git", "git+ssh", "ws", "wss"]

/-- Scheme extraction of urlsplit: the part before the first colon is the
scheme when it is nonempty, starts with an ASCII letter and consists of
scheme characters; it is lowercased and removed, otherwise the URL is
left whole. -/
def schemeSplit (cs : List Char) : List Char × List Char :=
  match splitAtChar ':' cs with
  | none => ([], cs)
  | some (pre, post) =>
    match pre with
    | [] => ([], cs)
    | c :: _ =>
      if c.isAlpha && pre.all isSchemeChar then (pre.map Char.toLower, post)
      else ([], cs)

/-- Netloc extraction of urlsplit: after a leading double slash, the
netloc runs up to the next slash, question mark or hash. -/
def netlocSplit (cs : List Char) : List Char × List Char :=
  match cs with
  | '/' :: '/' :: rest =>
    (rest.takeWhile (fun c => c != '/' && c != '?' && c != '#'),
     rest.dropWhile (fun c => c != '/' && c != '?' && c != '#'))
  | _ => ([], cs)

/-- Param extraction of urlparse (splitparams of urllib.parse): the params
start at the first semicolon of the last path segment (or of the whole
path when it has no slash); absent such a semicolon the params are empty. -/
def splitParams (cs : List Char) : List Char × List Char :=
  if cs.contains '/' then
    let lastSeg := (cs.reverse.takeWhile (fun c => c != '/')).reverse
    let pre := cs.take (cs.length - lastSeg.length)
    match splitAtChar ';' lastSeg with
    | none => (cs, [])
    | some (a, b) => (pre ++ a, b)
  else
    match splitAtChar ';' cs with
    | none => (cs, [])
    | some (a, b) => (a, b)

/-- Reassembly of geturl (urlunparse then urlunsplit, CPython 3.11
semantics): nonempty params are re-attached with a semicolon; the double
slash is re-inserted when the netloc is nonempty or the scheme uses a
netloc and the path does not already start with a double slash; empty
query and fragment delimiters are dropped. -/
def urlUnparse (scheme netloc path params query fragment : List Char) : List Char :=
  let u1 := if params.isEmpty then path else path ++ ';' :: params
  let u2 :=
    if !netloc.isEmpty ||
        (!scheme.isEmpty && usesNetloc.contains (String.mk scheme) &&
          !listStartsWith u1 ['/', '/']) then
      let u3 := if !u1.isEmpty && !listStartsWith u1 ['/'] then '/' :: u1 else u1
      '/' :: '/' :: (netloc ++ u3)
    else u1
  let u4 := if scheme.isEmpty then u2 else scheme ++ ':' :: u2
  let u5 := if query.isEmpty then u4 else u4 ++ '?' :: query
  if fragment.isEmpty then u5 else u5 ++ '#' :: fragment

/-- Model of urllib.parse.urlparse(url).geturl() as run by the script
(flash_usb.py lines 123-124), following CPython 3.11 (the container
interpreter): lstrip C0 controls and spaces, remove tab/CR/LF anywhere,
split scheme (lowercasing it), netloc, fragment, query and params, then
reassemble, which drops empty trailing query/fragment/params delimiters.
The ValueError paths of urlsplit (unbalanced or invalid bracketed hosts,
non-ASCII netlocs rejected under NFKC normalization) are outside this
model; theorems quantifying over URLs therefore assume pyUrlTotal. -/
def pyGeturl (s : String) : String :=
  let cs := (s.toList.dropWhile isC0OrSpace).filter (fun c => !isUnsafeUrlChar c)
  let sp := schemeSplit cs
  let scheme := sp.1
  let np := netlocSplit sp.2
  let fp :=
    match splitAtChar '#' np.2 with
    | none => (np.2, ([] : List Char))
    | some (a, b) => (a, b)
  let qp :=
    match splitAtChar '?' fp.1 with
    | none => (fp.1, ([] : List Char))
    | some (a, b) => (a, b)
  let pp :=
    if usesParams.contains (String.mk scheme) && qp.1.contains ';' then
      splitParams qp.1
    else (qp.1, [])
  String.mk (urlUnparse scheme np.1 pp.1 pp.2 qp.2 fp.2)

/-- URLs on which urlsplit completes without raising ValueError: ASCII
and free of square brackets (a bracketed netloc can raise, and a
non-ASCII netloc can be rejected under NFKC normalization; the script
catches neither). -/
def pyUrlTotal (u : String) : Bool :=
  u.toList.all (fun c => c.toNat < 128 && c != '[' && c != ']')

/-- Embedding of check_preconditions (flash_usb.py lines 98-152).  The
script parses the supplied URL and runs every URL check on
parsed.geturl() (lines 123-124), modelled by pyGeturl. -/
def check_preconditions (env : Env) (args : Args) : Except Err Unit :=
  if env.uid ≠ 0 then .error .missingPrivilege
  else
    match args.dev_path with
    | none => .error .missingDevicePath
    | some dev =>
      if env.pathExists (pyPathStr dev) = false then .error .deviceNotFound
      else
        match args.image_url with
        | none => .ok ()
        | some url0 =>
          let url := pyGeturl url0
          if strStarts (strLower url) "http" = false then .error .badUrlScheme
          else if strEnds (strLower url) ".img" = false then .error .badUrlExtension
          else if (strContainsSub url "-bios" || strContainsSub url "-efi") = false then
            .error .badUrlNaming
          else if env.urlReachable url = false then .error .urlUnreachable
          else .ok ()

/-- Embedding of choose_profile (lines 155-188).  The interactive input is
the head of the inputs list; an empty list models end of input (input()
would raise EOFError there, which the script does not catch). -/
def choose_profile (config : Config) (inputs : List String) :
    Except Err (String × List String) :=
  if config.usb_images.all_in_one = false then
    match inputs with
    | [] => .error .eofOnInput
    | inp :: rest =>
      match pyInt inp with
      | none => .error .invalidProfileChoice
      | some k =>
        if k < 1 ∨ (config.profiles.length : Int) < k then .error .invalidProfileChoice
        else .ok (config.profiles.getD (k - 1).toNat "", rest)
  else .ok ("all", inputs)

/-- Embedding of choose_bios (lines 191-223). -/
def choose_bios (config : Config) (inputs : List String) :
    Except Err (String × List String) :=
  let u := config.usb_images
  if u.build = false then .error .buildDisabled
  else if u.bios = true ∧ u.efi = true then
    match inputs with
    | [] => .error .eofOnInput
    | bios_type :: rest =>
      if bios_type = "bios" ∨ bios_type = "efi" then .ok (bios_type, rest)
      else .error .invalidBiosChoice
  else if u.bios = true then .ok ("bios", inputs)
  else if u.efi = true then .ok ("efi", inputs)
  else .error .noBiosTypeConfigured

/-- Embedding of generate_command (lines 226-249).  pathExists models
image_path.exists().  Note the produced -i argument is the literal string
"../" prepended to str(image_path). -/
def generate_command (config : Config) (dev_path : String) (profile bios : String)
    (pathExists : String → Bool) : Except Err (List String) :=
  let image_path := pyPathJoin config.usb_images.output_path
    (profile ++ "-" ++ bios ++ ".img")
  if pathExists image_path = false then .error .artifactNotFound
  else .ok ["./flashusb.sh", "-d", dev_path, "-i", "../" ++ image_path, "-b", bios]

/-- Embedding of the command-resolution part of main (lines 323-331): with
a URL the command is built directly; otherwise profile, bios and the
generated command are resolved in order.  Returns the command together with
the unconsumed interactive inputs. -/
def build_command (config : Config) (dev_path_arg : String) (image_url : Option String)
    (inputs : List String) (pathExists : String → Bool) :
    Except Err (List String × List String) :=
  let dev := pyPathStr dev_path_arg
  match image_url with
  | some url => .ok (["./flashusb.sh", "-d", dev, "-u", url], inputs)
  | none =>
    match choose_profile config inputs with
    | .error e => .error e
    | .ok (profile, inputs1) =>
      match choose_bios config inputs1 with
      | .error e => .error e
      | .ok (bios, inputs2) =>
        match generate_command config dev profile bios pathExists with
        | .error e => .error e
        | .ok cmd => .ok (cmd, inputs2)

/-- Observable effects of run_flash_usb_script.  outputLine is listed for
completeness: the script opens the child without capturing stdout, so
proc.stdout is None and no line is ever read or echoed. -/
inductive Event where
  | spawn (cmd : String) (workdir : String)
  | outputLine (line : String)
  | killpg (pgid : Nat) (sig : Nat)
  deriving DecidableEq, Repr

/-- The behavior of the spawned child: how many times proc.poll() returns
None before the child exits, its exit code, and os.getpgid(proc.pid). -/
structure ChildBehavior where
  polls : Nat
  exitCode : Int
  pgid : Nat

/-- The poll loop of run_flash_usb_script (lines 268-284).  Each remaining
poll is one loop iteration (proc.stdout is None, so the body only busy
continues); a KeyboardInterrupt pending for iteration k fires when k polls
remain to be consumed, sending SIGTERM (signal 15) to the whole process
group and reporting interruption; once the loop exits, a nonzero exit code
is a child execution failure. -/
def superviseLoop (pgid : Nat) (exitCode : Int) :
    Nat → Option Nat → Except Err Unit × List Event
  | 0, _ =>
    if exitCode ≠ 0 then (.error .childExecutionFailed, []) else (.ok (), [])
  | _ + 1, some 0 => (.error .interruptedByUser, [.killpg pgid 15])
  | r + 1, some (j + 1) => superviseLoop pgid exitCode r (some j)
  | r + 1, none => superviseLoop pgid exitCode r none

/-- Embedding of run_flash_usb_script (lines 252-284): join the command
list into one shell line, fail if the ESP working directory is missing
(before any spawn), otherwise spawn the child there and run the poll loop.
interruptAt is the loop iteration (if any) at which a KeyboardInterrupt
arrives while the child runs. -/
def run_flash_usb_script (config : Config) (cmd : List String)
    (pathExists : String → Bool) (child : ChildBehavior) (interruptAt : Option Nat) :
    Except Err Unit × List Event :=
  let cmdStr := String.intercalate " " cmd
  let workdir := pyPathStr config.esp_dest_dir
  if pathExists workdir = false then (.error .workdirNotFound, [])
  else
    let r := superviseLoop child.pgid child.exitCode child.polls interruptAt
    (r.1, .spawn cmdStr workdir :: r.2)

/-- Modelled from the spec: the scheme component of a URL, as urlparse
extracts it — the (lowercased) part before the first colon when it is a
valid scheme (a letter followed by letters, digits, plus, minus or dot),
empty otherwise.  Used only to state what the spec calls the scheme. -/
def urlScheme (u : String) : String :=
  let cs := u.toList
  let pre := cs.takeWhile (fun c => c != ':')
  if pre.length = cs.length then ""
  else
    match pre with
    | [] => ""
    | c :: rest =>
      if c.isAlpha && rest.all (fun d => d.isAlphanum || d == '+' || d == '-' || d == '.') then
        String.mk ((c :: rest).map Char.toLower)
      else ""

/-- Return the suffix after the first occurrence of the needle, if any. -/
def afterSub (needle : List Char) : List Char → Option (List Char)
  | [] => if needle.isEmpty then some [] else none
  | c :: t =>
    if listStartsWith (c :: t) needle then some ((c :: t).drop needle.length)
    else afterSub needle t

/-- Modelled from the spec: the path component of a URL, as urlparse
extracts it — after a scheme://netloc prefix, from the first slash up to
the query or fragment separator.  Used only to state what the spec calls
the path component. -/
def urlPath (u : String) : String :=
  let cs := u.toList
  let rest :=
    match afterSub ("://".toList) cs with
    | some r => r.dropWhile (fun c => c != '/')
    | none =>
      match afterSub [':'] cs with
      | some r => r
      | none => cs
  String.mk (rest.takeWhile (fun c => c != '?' && c != '#'))

/-- The poll loop with an interruption pending while polls remain reports
interruption after one SIGTERM to the process group. -/
theorem superviseLoop_interrupt (pgid : Nat) (ec : Int) :
    ∀ r k : Nat, k < r →
      superviseLoop pgid ec r (some k) =
        (.error .interruptedByUser, [.killpg pgid 15]) := by
  intro r
  induction r with
  | zero => intro k hk; exact absurd hk (Nat.not_lt_zero k)
  | succ r ih =>
    intro k hk
    cases k with
    | zero => rfl
    | succ j => exact ih j (Nat.lt_of_succ_lt_succ hk)

/-- C2: with an image URL supplied, command resolution short-circuits to
the direct-URL mode: for every configuration, input stream and filesystem
state the result is exactly the flashing script invoked with -d device
then -u url, no interactive input is consumed, and no usb_images field is
consulted (the result does not depend on the configuration or the
filesystem at all, as the universal quantification shows). -/
theorem c2_direct_url_short_circuit (config : Config) (dev url : String)
    (inputs : List String) (fs : String → Bool) :
    build_command config dev (some url) inputs fs =
      .ok (["./flashusb.sh", "-d", pyPathStr dev, "-u", url], inputs) := rfl

/-- C6: with all_in_one true, profile resolution returns the literal
profile "all" and consumes no interactive input, for every configured
profile list and every input stream. -/
theorem c6_all_in_one_profile (config : Config) (inputs : List String)
    (h : config.usb_images.all_in_one = true) :
    choose_profile config inputs = .ok ("all", inputs) := by
  simp [choose_profile, h]

/-- Witness for c6_all_in_one_profile at a concrete configuration. -/
theorem c6_all_in_one_profile_witness :
    choose_profile ⟨⟨true, true, false, true, "out"⟩, ["edge", "video"], "esp"⟩ ["2"] =
      .ok ("all", ["2"]) :=
  c6_all_in_one_profile _ _ rfl

/-- C10: whenever bios resolution succeeds, the returned bios string is one
of the two literals "bios" and "efi", for every configuration and every
interactive input stream. -/
theorem c10_bios_values (config : Config) (inputs rest : List String) (b : String)
    (h : choose_bios config inputs = .ok (b, rest)) :
    b = "bios" ∨ b = "efi" := by
  obtain ⟨⟨aio, bld, bi, ef, op⟩, profs, dd⟩ := config
  cases bld with
  | false => simp [choose_bios] at h
  | true =>
    cases bi with
    | false =>
      cases ef with
      | false => simp [choose_bios] at h
      | true =>
        simp [choose_bios] at h
        exact Or.inr h.1.symm
    | true =>
      cases ef with
      | false =>
        simp [choose_bios] at h
        exact Or.inl h.1.symm
      | true =>
        cases inputs with
        | nil => simp [choose_bios] at h
        | cons inp r2 =>
          simp [choose_bios] at h
          split at h
          · rename_i hv
            simp at h
            obtain ⟨rfl, rfl⟩ := h
            exact hv
          · simp at h

/-- Witness for c10_bios_values at a concrete configuration. -/
theorem c10_bios_values_witness :
    ("bios" : String) = "bios" ∨ ("bios" : String) = "efi" :=
  c10_bios_values ⟨⟨false, true, true, false, "out"⟩, [], "esp"⟩ [] [] "bios" rfl

/-- C5 as stated is refuted by the code: a configuration with bios and efi
both false but build also false makes choose_bios fail with buildDisabled
(the build check runs first), not with noBiosTypeConfigured. -/
theorem c5_counterexample :
    (⟨⟨false, false, false, false, "out"⟩, ["edge"], "esp"⟩ : Config).usb_images.bios = false ∧
    (⟨⟨false, false, false, false, "out"⟩, ["edge"], "esp"⟩ : Config).usb_images.efi = false ∧
    choose_bios ⟨⟨false, false, false, false, "out"⟩, ["edge"], "esp"⟩ [] =
      .error .buildDisabled ∧
    Err.buildDisabled ≠ Err.noBiosTypeConfigured :=
  ⟨rfl, rfl, rfl, by decide⟩

/-- C5 amended: provided usb_images.build is true, every configuration with
bios and efi both false makes bios resolution fail with
noBiosTypeConfigured, regardless of profile state and input stream. -/
theorem c5_no_bios_type (config : Config) (inputs : List String)
    (hb : config.usb_images.build = true)
    (h1 : config.usb_images.bios = false) (h2 : config.usb_images.efi = false) :
    choose_bios config inputs = .error .noBiosTypeConfigured := by
  simp [choose_bios, hb, h1, h2]

/-- Witness for c5_no_bios_type at a concrete configuration. -/
theorem c5_no_bios_type_witness :
    choose_bios ⟨⟨false, true, false, false, "out"⟩, ["edge"], "esp"⟩ [] =
      .error .noBiosTypeConfigured :=
  c5_no_bios_type _ _ rfl rfl rfl

/-- C1 amended: when the artifact output_path/profile-bios.img exists, the
builder succeeds and the command is the flashing script with -d device,
-i the artifact path prefixed with the literal "../", and -b the bios
type (the existence check itself uses the unprefixed artifact path). -/
theorem c1_command_shape (config : Config) (dev profile bios : String)
    (fs : String → Bool)
    (h : fs (pyPathJoin config.usb_images.output_path
      (profile ++ "-" ++ bios ++ ".img")) = true) :
    generate_command config dev profile bios fs =
      .ok ["./flashusb.sh", "-d", dev, "-i",
        "../" ++ pyPathJoin config.usb_images.output_path
          (profile ++ "-" ++ bios ++ ".img"),
        "-b", bios] := by
  simp [generate_command, h]

/-- Witness for c1_command_shape at a concrete configuration. -/
theorem c1_command_shape_witness :
    generate_command ⟨⟨false, true, false, true, "out"⟩, ["edge"], "esp"⟩ "/dev/sdc"
        "edge" "efi" (fun p => p == "out/edge-efi.img") =
      .ok ["./flashusb.sh", "-d", "/dev/sdc", "-i", "../out/edge-efi.img", "-b", "efi"] :=
  c1_command_shape _ "/dev/sdc" "edge" "efi" _ (by decide)

/-- C1 as stated is refuted by the code: building for profile edge and
bios efi with output_path /tmp/out and an existing /tmp/out/edge-efi.img
succeeds, but the -i argument is "..//tmp/out/edge-efi.img" (the artifact
path with "../" prepended), not the artifact path itself, and the artifact
path /tmp/out/edge-efi.img appears in no argument of the command. -/
theorem c1_counterexample :
    generate_command ⟨⟨false, true, false, true, "/tmp/out"⟩, ["edge"], "esp"⟩ "/dev/sdc"
        "edge" "efi" (fun p => p == "/tmp/out/edge-efi.img") =
      .ok ["./flashusb.sh", "-d", "/dev/sdc", "-i", "..//tmp/out/edge-efi.img", "-b", "efi"] ∧
    ("..//tmp/out/edge-efi.img" : String) ≠ "/tmp/out/edge-efi.img" ∧
    (["./flashusb.sh", "-d", "/dev/sdc", "-i", "..//tmp/out/edge-efi.img", "-b",
        "efi"].contains "/tmp/out/edge-efi.img") = false :=
  ⟨rfl, by decide, by decide⟩

/-- C8: when the ESP working directory does not exist, the supervisor fails
with workdirNotFound and produces no observable event at all — in
particular no child process is spawned. -/
theorem c8_workdir_missing (config : Config) (cmd : List String)
    (fs : String → Bool) (child : ChildBehavior) (interruptAt : Option Nat)
    (h : fs (pyPathStr config.esp_dest_dir) = false) :
    run_flash_usb_script config cmd fs child interruptAt =
      (.error .workdirNotFound, []) := by
  simp [run_flash_usb_script, h]

/-- Witness for c8_workdir_missing at a concrete configuration. -/
theorem c8_workdir_missing_witness :
    run_flash_usb_script ⟨⟨false, true, true, false, "out"⟩, [], "esp"⟩ ["./flashusb.sh"]
        (fun _ => false) ⟨2, 0, 7⟩ none = (.error .workdirNotFound, []) :=
  c8_workdir_missing _ _ _ _ _ rfl

/-- C9: a cancellation signal arriving while the child is still running
(at poll iteration k with k strictly below the number of pending polls)
makes the supervisor send SIGTERM (signal 15) to the child's entire
process group — the killpg event carries the group id, not the child pid —
and report interruptedByUser; in particular the outcome is never
childExecutionFailed, whatever the child's exit code would have been. -/
theorem c9_interrupt_kills_group (config : Config) (cmd : List String)
    (fs : String → Bool) (child : ChildBehavior) (k : Nat)
    (hw : fs (pyPathStr config.esp_dest_dir) = true)
    (hk : k < child.polls) :
    run_flash_usb_script config cmd fs child (some k) =
      (.error .interruptedByUser,
        [.spawn (String.intercalate " " cmd) (pyPathStr config.esp_dest_dir),
          .killpg child.pgid 15]) ∧
    (run_flash_usb_script config cmd fs child (some k)).1 ≠
      .error .childExecutionFailed := by
  have hloop := superviseLoop_interrupt child.pgid child.exitCode child.polls k hk
  have hmain : run_flash_usb_script config cmd fs child (some k) =
      (.error .interruptedByUser,
        [.spawn (String.intercalate " " cmd) (pyPathStr config.esp_dest_dir),
          .killpg child.pgid 15]) := by
    simp [run_flash_usb_script, hw, hloop]
  refine ⟨hmain, ?_⟩
  rw [hmain]
  intro hc
  exact Err.noConfusion (Except.error.inj hc)

/-- Witness for c9_interrupt_kills_group at a concrete run. -/
theorem c9_interrupt_kills_group_witness :
    run_flash_usb_script ⟨⟨false, true, true, false, "out"⟩, [], "esp"⟩ ["./flashusb.sh"]
        (fun _ => true) ⟨2, 0, 7⟩ (some 0) =
      (.error .interruptedByUser, [.spawn "./flashusb.sh" "esp", .killpg 7 15]) :=
  (c9_interrupt_kills_group _ _ _ _ 0 rfl (by decide)).1

/-- With the privilege and device checks passed, the precondition check on
a supplied URL reduces to the four URL tests in order, each run on the
urlparse round-trip of the URL. -/
theorem check_preconditions_url (env : Env) (dev url : String)
    (hu : env.uid = 0) (hd : env.pathExists (pyPathStr dev) = true) :
    check_preconditions env ⟨some dev, some url⟩ =
      (if strStarts (strLower (pyGeturl url)) "http" = false then .error .badUrlScheme
       else if strEnds (strLower (pyGeturl url)) ".img" = false then
         .error .badUrlExtension
       else if (strContainsSub (pyGeturl url) "-bios" ||
           strContainsSub (pyGeturl url) "-efi") = false then
         .error .badUrlNaming
       else if env.urlReachable (pyGeturl url) = false then .error .urlUnreachable
       else .ok ()) := by
  unfold check_preconditions
  simp [hu, hd]

/-- The urlparse round-trip drops a trailing empty query delimiter, so the
extension check of the program passes here (CPython drops the question
mark before the endswith test). -/
theorem pyGeturl_drops_empty_query :
    pyGeturl "http://x/y-bios.img?" = "http://x/y-bios.img" := by decide

/-- The urlparse round-trip drops a trailing empty fragment delimiter. -/
theorem pyGeturl_drops_empty_fragment :
    pyGeturl "http://x/y-bios.img#" = "http://x/y-bios.img" := by decide

/-- The urlparse round-trip drops a trailing empty params delimiter for a
params-splitting scheme such as http. -/
theorem pyGeturl_drops_empty_params :
    pyGeturl "http://x/y-bios.img;" = "http://x/y-bios.img" := by decide

/-- For a scheme outside uses_params the trailing semicolon survives the
round-trip. -/
theorem pyGeturl_keeps_params_other_scheme :
    pyGeturl "httpx://x/y-bios.img;" = "httpx://x/y-bios.img;" := by decide

/-- urlsplit removes ASCII tab (and CR, LF) anywhere in the URL, so a URL
with a tab inside the scheme passes the prefix check of the program. -/
theorem pyGeturl_removes_tab :
    pyGeturl "ht\tt\np://x/y-bios.img" = "http://x/y-bios.img" := by decide

/-- urlsplit lstrips C0 control and space characters. -/
theorem pyGeturl_lstrips_space :
    pyGeturl " http://x/y-bios.img" = "http://x/y-bios.img" := by decide

/-- The scheme component is lowercased by the round-trip; the rest of the
URL is preserved case-sensitively. -/
theorem pyGeturl_lowercases_scheme :
    pyGeturl "HTTP://X/Y-BIOS.IMG" = "http://X/Y-BIOS.IMG" := by decide

/-- A nonempty query survives the round-trip unchanged. -/
theorem pyGeturl_keeps_nonempty_query :
    pyGeturl "http://example.com/a-bios.img?x=1" = "http://example.com/a-bios.img?x=1" := by
  decide

/-- A netloc-less http URL gains a double slash on reassembly (CPython
3.11 urlunsplit re-inserts it for schemes using a netloc). -/
theorem pyGeturl_reinserts_netloc_slashes :
    pyGeturl "http:path-bios.img" = "http:///path-bios.img" := by decide

/-- C3 as stated is refuted by the code: the URL
httpx://example.com/a-bios.img has scheme httpx, neither http nor https,
yet the precondition check passes without any error, because the code only
tests that the lowercased round-tripped URL string starts with "http"
(here the round-trip is the identity). -/
theorem c3_counterexample :
    urlScheme "httpx://example.com/a-bios.img" ≠ "http" ∧
    urlScheme "httpx://example.com/a-bios.img" ≠ "https" ∧
    check_preconditions ⟨0, fun _ => true, fun _ => true⟩
      ⟨some "/dev/sdc", some "httpx://example.com/a-bios.img"⟩ = .ok () :=
  ⟨by decide, by decide, rfl⟩

/-- C3 amended: for an ASCII, bracket-free URL (so urlsplit cannot raise)
with the privilege and device checks passed, the check fails with
badUrlScheme iff the lowercased urlparse round-trip of the URL does not
start with the string "http" — a prefix test on the round-tripped URL
string, not a whitelist of the scheme component. -/
theorem c3_scheme_check (env : Env) (dev url : String)
    (hu : env.uid = 0) (hd : env.pathExists (pyPathStr dev) = true)
    (_ht : pyUrlTotal url = true) :
    (check_preconditions env ⟨some dev, some url⟩ = .error .badUrlScheme ↔
      strStarts (strLower (pyGeturl url)) "http" = false) := by
  rw [check_preconditions_url env dev url hu hd]
  by_cases hs : strStarts (strLower (pyGeturl url)) "http" = false
  · simp [hs]
  · rw [if_neg hs, eq_false hs, iff_false]
    split
    · simp
    split
    · simp
    split <;> simp

/-- Witness for c3_scheme_check at a concrete environment and URL. -/
theorem c3_scheme_check_witness :
    (check_preconditions ⟨0, fun _ => true, fun _ => true⟩
        ⟨some "/dev/sdc", some "ftp://x/y-bios.img"⟩ = .error .badUrlScheme ↔
      strStarts (strLower (pyGeturl "ftp://x/y-bios.img")) "http" = false) :=
  c3_scheme_check _ "/dev/sdc" _ rfl rfl (by decide)

/-- C4 as stated is refuted by the code: for
http://example.com/a-bios.img?x=1 the URL's path component /a-bios.img
does end in .img, yet the check fails with the bad-extension error,
because the code tests the whole round-tripped URL string (whose nonempty
query survives geturl), not the path component. -/
theorem c4_counterexample :
    urlPath "http://example.com/a-bios.img?x=1" = "/a-bios.img" ∧
    strEnds (strLower (urlPath "http://example.com/a-bios.img?x=1")) ".img" = true ∧
    check_preconditions ⟨0, fun _ => true, fun _ => true⟩
      ⟨some "/dev/sdc", some "http://example.com/a-bios.img?x=1"⟩ =
        .error .badUrlExtension :=
  ⟨by decide, by decide, rfl⟩

/-- C4 amended: for an ASCII, bracket-free URL with the privilege and
device checks passed and the scheme prefix test passed, the check fails
with badUrlExtension iff the lowercased urlparse round-trip of the URL
does not end in ".img" — a suffix test on the round-tripped URL string
(in which geturl has dropped any trailing empty query, fragment or params
delimiter but a nonempty query or fragment survives), not on the path
component. -/
theorem c4_extension_check (env : Env) (dev url : String)
    (hu : env.uid = 0) (hd : env.pathExists (pyPathStr dev) = true)
    (_ht : pyUrlTotal url = true)
    (hs : strStarts (strLower (pyGeturl url)) "http" = true) :
    (check_preconditions env ⟨some dev, some url⟩ = .error .badUrlExtension ↔
      strEnds (strLower (pyGeturl url)) ".img" = false) := by
  rw [check_preconditions_url env dev url hu hd]
  have hs2 : ¬strStarts (strLower (pyGeturl url)) "http" = false := by simp [hs]
  rw [if_neg hs2]
  by_cases he : strEnds (strLower (pyGeturl url)) ".img" = false
  · simp [he]
  · rw [if_neg he, eq_false he, iff_false]
    split
    · simp
    split <;> simp

/-- Witness for c4_extension_check at a concrete environment and URL. -/
theorem c4_extension_check_witness :
    (check_preconditions ⟨0, fun _ => true, fun _ => true⟩
        ⟨some "/dev/sdc", some "http://x/y-bios.txt"⟩ = .error .badUrlExtension ↔
      strEnds (strLower (pyGeturl "http://x/y-bios.txt")) ".img" = false) :=
  c4_extension_check _ "/dev/sdc" _ rfl rfl (by decide) (by decide)

/-- Profile resolution step on a non-numeric input: int() raises and the
script reports a wrong profile number. -/
theorem choose_profile_none (config : Config) (inp : String) (rest : List String)
    (h : config.usb_images.all_in_one = false) (hpk : pyInt inp = none) :
    choose_profile config (inp :: rest) = .error .invalidProfileChoice := by
  simp [choose_profile, h, hpk]

/-- Profile resolution step on a numeric input: the range check decides
between failure and 1-indexed selection. -/
theorem choose_profile_some (config : Config) (inp : String) (rest : List String)
    (h : config.usb_images.all_in_one = false) (k : Int) (hpk : pyInt inp = some k) :
    choose_profile config (inp :: rest) =
      (if k < 1 ∨ (config.profiles.length : Int) < k then .error .invalidProfileChoice
       else .ok (config.profiles.getD (k - 1).toNat "", rest)) := by
  simp [choose_profile, h, hpk]

/-- C7: with all_in_one false and an interactive input supplied, profile
resolution fails with invalidProfileChoice exactly when the input is
non-numeric (int() rejects it) or parses to a number outside [1, N] for N
the number of configured profiles; and on a valid choice k it returns the
k-th name of the ordered 1-indexed profile list, consuming the input. -/
theorem c7_profile_choice (config : Config) (inp : String) (rest : List String)
    (h : config.usb_images.all_in_one = false) :
    (choose_profile config (inp :: rest) = .error .invalidProfileChoice ↔
      pyInt inp = none ∨
        ∃ k : Int, pyInt inp = some k ∧
          (k < 1 ∨ (config.profiles.length : Int) < k)) ∧
    (∀ k : Int, pyInt inp = some k → 1 ≤ k → k ≤ (config.profiles.length : Int) →
      ∃ p, config.profiles.get? (k - 1).toNat = some p ∧
        choose_profile config (inp :: rest) = .ok (p, rest)) := by
  constructor
  · cases hp : pyInt inp with
    | none => simp [choose_profile_none config inp rest h hp, hp]
    | some k =>
      rw [choose_profile_some config inp rest h k hp]
      by_cases hk : k < 1 ∨ (config.profiles.length : Int) < k
      · rw [if_pos hk]
        simp [hp]
        omega
      · rw [if_neg hk]
        simp [hp]
        omega
  · intro k hpk h1 h2
    have hnot : ¬(k < 1 ∨ (config.profiles.length : Int) < k) := by omega
    rw [choose_profile_some config inp rest h k hpk, if_neg hnot]
    have hlt : (k - 1).toNat < config.profiles.length := by omega
    have hget := List.get?_eq_get hlt
    refine ⟨config.profiles.get ⟨(k - 1).toNat, hlt⟩, hget, ?_⟩
    have hgetD : config.profiles.getD (k - 1).toNat "" =
        config.profiles.get ⟨(k - 1).toNat, hlt⟩ := by
      rw [List.getD_eq_getElem?_getD, ← List.get?_eq_getElem?, hget]
      rfl
    rw [hgetD]

/-- Witness for c7_profile_choice at a concrete configuration and inputs. -/
theorem c7_profile_choice_witness :
    choose_profile ⟨⟨false, true, true, false, "out"⟩, ["edge", "video"], "esp"⟩
      ["2", "x"] = .ok ("video", ["x"]) := by
  have hc := (c7_profile_choice
    ⟨⟨false, true, true, false, "out"⟩, ["edge", "video"], "esp"⟩ "2" ["x"] rfl).2
    2 (by decide) (by decide) (by decide)
  obtain ⟨p, hp, hr⟩ := hc
  have hpv : p = "video" := by
    have hsome : some p = some "video" := by rw [← hp]; decide
    injection hsome
  rw [hpv] at hr
  exact hr

end FlashUsb
